import Mathlib

/-!
Shallow embedding of the pg_auto_failover keeper (src/bin/pg_autoctl), covering
the node-active loop of service_keeper.c, the keeper state logic of keeper.c,
and the connection-retry jitter of pgsql.c.  Machine integers are modelled as
Nat or Int, with an explicit modulo 2^64 where uint64 wrap-around matters.
External effects (monitor calls, local Postgres queries, file writes) are
modelled as oracle inputs that record the outcome of each effectful step.
-/

/-- Modelled from the spec: the `NodeState` enum of state.h is not under src/;
the spec (§3 DATA MODEL) lists its values, which the code under src/ uses by
their C names (`PRIMARY_STATE`, `DEMOTE_TIMEOUT_STATE`, ...). -/
inductive NodeState where
  | INIT
  | SINGLE
  | WAIT_PRIMARY
  | PRIMARY
  | APPLY_SETTINGS
  | PREP_PROMOTION
  | STOP_REPLICATION
  | WAIT_STANDBY
  | CATCHINGUP
  | SECONDARY
  | MAINTENANCE
  | PREPARE_MAINTENANCE
  | WAIT_MAINTENANCE
  | DRAINING
  | DEMOTE_TIMEOUT
  | DEMOTED
  | REPORT_LSN
  | FAST_FORWARD
  | DROPPED
  | NO_STATE
  | ANY_STATE
  deriving DecidableEq, Fintype

/-- The persisted keeper state (state.h `KeeperStateData`), as read and written
by keeper.c and service_keeper.c.  Timestamps are uint64 wall-clock seconds;
version/identifier fields are the cached Postgres control data. -/
structure KeeperStateData where
  current_node_id : Int
  current_group : Int
  current_role : NodeState
  assigned_role : NodeState
  last_monitor_contact : Nat
  last_secondary_contact : Nat
  pg_control_version : Nat
  catalog_version_no : Nat
  system_identifier : Nat
  deriving DecidableEq

/-- C uint64 subtraction `a - b`: wraps modulo 2^64. -/
def usub64 (a b : Nat) : Nat :=
  (a % 2 ^ 64 + (2 ^ 64 - b % 2 ^ 64)) % 2 ^ 64

/-- service_keeper.c `in_network_partition`: both contact timestamps are
nonzero and both lags (computed in uint64 arithmetic) strictly exceed the
configured network partition timeout.  The C `networkPartitionTimeout` is an
`int` holding a nonnegative configured number of seconds, so it is a Nat
here. -/
def in_network_partition (keeperState : KeeperStateData) (now : Nat)
    (networkPartitionTimeout : Nat) : Bool :=
  let monitor_contact_lag := usub64 now keeperState.last_monitor_contact
  let secondary_contact_lag := usub64 now keeperState.last_secondary_contact
  decide (0 < keeperState.last_monitor_contact) &&
    decide (0 < keeperState.last_secondary_contact) &&
    decide (networkPartitionTimeout < monitor_contact_lag) &&
    decide (networkPartitionTimeout < secondary_contact_lag)

/-- service_keeper.c `is_network_healthy`.  The call
`primary_has_replica(postgres, PG_AUTOCTL_REPLICA_USERNAME, &hasReplica)`
queries the local pg_stat_replication view for the configured replication
username; its return value and out-parameter are the oracle inputs
`replicaCheckOk` and `hasReplica`.  Returns the boolean result together with
the possibly updated keeper state (the replica branch refreshes
`last_secondary_contact`). -/
def is_network_healthy (networkPartitionTimeout : Nat)
    (replicaCheckOk hasReplica : Bool) (now : Nat)
    (keeperState : KeeperStateData) : Bool × KeeperStateData :=
  if keeperState.current_role ≠ NodeState.PRIMARY then
    (true, keeperState)
  else if replicaCheckOk && hasReplica then
    (true, { keeperState with last_secondary_contact := now })
  else if ¬ in_network_partition keeperState now networkPartitionTimeout then
    (true, keeperState)
  else
    (false, keeperState)

/-- keeper.c `keeper_should_ensure_current_state_before_transition`: reads only
the current and assigned roles of the keeper state. -/
def keeper_should_ensure_current_state_before_transition
    (keeperState : KeeperStateData) : Bool :=
  if keeperState.assigned_role = keeperState.current_role then
    false
  else if keeperState.assigned_role = NodeState.DRAINING ∨
      keeperState.assigned_role = NodeState.DEMOTE_TIMEOUT ∨
      keeperState.assigned_role = NodeState.DEMOTED then
    false
  else if keeperState.current_role = NodeState.DRAINING ∨
      keeperState.current_role = NodeState.DEMOTE_TIMEOUT ∨
      keeperState.current_role = NodeState.DEMOTED then
    false
  else
    true

/-- The fields of keeper.h `LocalPostgresServer` used by `ReportPgIsRunning`
and `keeper_update_pg_state`: the per-tick local Postgres facts. -/
structure LocalPostgres where
  pgIsRunning : Bool
  pgFirstStartFailureTs : Nat
  pgStartRetries : Nat
  pgsrSyncState : String
  currentLSN : String
  deriving DecidableEq

/-- keeper.c `ReportPgIsRunning`: the boolean reported to the monitor as
`pgIsRunning`.  `timeout` and `retries` are the configuration values
`postgresql_restart_failure_timeout` and
`postgresql_restart_failure_max_retries` (nonnegative C ints). -/
def ReportPgIsRunning (current_role : NodeState) (postgres : LocalPostgres)
    (now timeout retries : Nat) : Bool :=
  if current_role ≠ NodeState.PRIMARY then
    postgres.pgIsRunning
  else if postgres.pgIsRunning then
    postgres.pgIsRunning
  else if postgres.pgFirstStartFailureTs = 0 then
    postgres.pgIsRunning
  else if timeout < usub64 now postgres.pgFirstStartFailureTs ∨
      retries ≤ postgres.pgStartRetries then
    false
  else
    true

/-- A peer node entry (`NodeAddress`; the struct definition lives in a header
not under src/, its fields are given by the spec §3 and used throughout
keeper.c). -/
structure NodeAddress where
  nodeId : Int
  name : String
  host : String
  port : Int
  lsn : String
  isPrimary : Bool
  deriving DecidableEq

/-- The all-zero `NodeAddress` slot of a zero-initialized C
`NodeAddressArray`: entries beyond `count` read as zero.  `NodeAddressArray`
values in keeper.c are `{ 0 }`-initialized and copied whole, so slots at or
past `count` hold zeroed structs (nodeId 0, empty strings). -/
def zeroNodeAddress : NodeAddress :=
  { nodeId := 0, name := "", host := "", port := 0, lsn := "", isPrimary := false }

/-- `nodesArray->nodes[i]` on the fixed-size zero-initialized C array, for an
array whose first `count` slots hold the given list: in-bounds reads return
the listed entry, out-of-bounds reads return the zeroed slot. -/
def nodeAt (nodes : List NodeAddress) (i : Nat) : NodeAddress :=
  nodes.getD i zeroNodeAddress

/-- The merge loop of keeper.c `diff_nodesArray` (the `for` loop over
`currentNodesArray`): the current array is scanned in order (here: by
structural recursion on the remaining suffix of current entries), with
`prevIndex` the cursor into the previous array and `acc` the diff accumulated
so far.  The `else if (currNode->nodeId > prevNode->nodeId)` branch appends
the current entry and then `break`s out of the loop. -/
def diff_nodesArray_loop (previousNodes : List NodeAddress)
    (prevIndex : Nat) (acc : List NodeAddress) :
    List NodeAddress → List NodeAddress
  | [] => acc
  | currNode :: restNodes =>
    let prevNode := nodeAt previousNodes prevIndex
    if currNode.nodeId < prevNode.nodeId then
      diff_nodesArray_loop previousNodes prevIndex (acc ++ [currNode]) restNodes
    else if currNode.nodeId = prevNode.nodeId then
      let acc' := if currNode.host ≠ prevNode.host then acc ++ [currNode] else acc
      let prevIndex' :=
        if prevIndex < previousNodes.length then prevIndex + 1 else prevIndex
      diff_nodesArray_loop previousNodes prevIndex' acc' restNodes
    else
      acc ++ [currNode]

/-- keeper.c `diff_nodesArray`: computes the array of node entries whose HBA
rules must be (re)ensured, from the previous `otherNodes` snapshot and the
array just fetched from the monitor.  When the previous array is empty the
whole current array is the diff. -/
def diff_nodesArray (previousNodes currentNodes : List NodeAddress) :
    List NodeAddress :=
  if previousNodes.length = 0 then
    currentNodes
  else
    diff_nodesArray_loop previousNodes 0 [] currentNodes

/-- Oracle outcomes for the effectful steps of keeper.c
`keeper_refresh_other_nodes` and `keeper_update_group_hba`:
`getOtherNodes` is the result of `monitor_get_other_nodes` (`none` = failure),
`hbaEnsureOk` the result of `pghba_ensure_host_rules_exist`, `pgIsRunning` the
result of `pg_setup_is_running`, and `reloadOk` the result of
`pgsql_reload_conf`. -/
structure RefreshOracle where
  getOtherNodes : Option (List NodeAddress)
  hbaEnsureOk : Bool
  pgIsRunning : Bool
  reloadOk : Bool
  deriving DecidableEq

/-- keeper.c `keeper_update_group_hba`: ensure the two HBA rules for every
entry of the diff array, then reload the Postgres configuration when Postgres
is running. -/
def keeper_update_group_hba (o : RefreshOracle)
    (diffNodes : List NodeAddress) : Bool :=
  if diffNodes.length = 0 then
    true
  else if ¬ o.hbaEnsureOk then
    false
  else if o.pgIsRunning then
    o.reloadOk
  else
    true

/-- keeper.c `keeper_refresh_other_nodes`, acting on the keeper's cached
`otherNodes` array: fetch the node list from the monitor, compute the diff
(or take the whole fetched list when `forceCacheInvalidation`), update the
HBA rules for the diff, and only then install the fetched list as the new
cache.  Returns the function's boolean result and the (possibly unchanged)
cache. -/
def keeper_refresh_other_nodes (otherNodes : List NodeAddress)
    (forceCacheInvalidation : Bool) (o : RefreshOracle) :
    Bool × List NodeAddress :=
  match o.getOtherNodes with
  | none => (false, otherNodes)
  | some newNodes =>
    let diffNodes :=
      if forceCacheInvalidation then newNodes
      else diff_nodesArray otherNodes newNodes
    if newNodes.length = 0 ∨ diffNodes.length = 0 then
      (true, newNodes)
    else if ¬ keeper_update_group_hba o diffNodes then
      (false, otherNodes)
    else
      (true, newNodes)

/-- The reply row of the monitor's `register_node` / `node_active` procedures
(monitor.h `MonitorAssignedState`). -/
structure MonitorAssignedState where
  nodeId : Int
  groupId : Int
  state : NodeState
  candidatePriority : Int
  replicationQuorum : Bool
  deriving DecidableEq

/-- The fields of keeper_config.h `KeeperConfig` read by the node-active
call: the group id, the cached replication slot name, and the
network-partition timeout (a nonnegative number of seconds). -/
structure KeeperConfig where
  groupId : Int
  replication_slot_name : String
  network_partition_timeout : Nat
  deriving DecidableEq

/-- Modelled from the spec: the `REPLICATION_SLOT_NAME_DEFAULT` macro of
defaults.h (not under src/), the fixed prefix of the managed replication slot
names, "named by a fixed pattern that embeds peer nodeId" (§4.4); pgsql.c
uses it both in `postgres_sprintf_replicationSlotName` and, spliced into SQL
string literals, in the slot-maintenance queries. -/
def REPLICATION_SLOT_NAME_DEFAULT : String := "pgautofailover_standby"

/-- pgsql.c `postgres_sprintf_replicationSlotName`: renders the
`"%s_%d"` format of `REPLICATION_SLOT_NAME_DEFAULT` and the node id into the
caller's slot-name buffer.  The C function's boolean result (whether the
rendering fit the buffer) is discarded with `(void)` at both keeper.c call
sites, which use only the rendered name, so the embedding returns the
rendered name. -/
def postgres_sprintf_replicationSlotName (nodeId : Int) : String :=
  REPLICATION_SLOT_NAME_DEFAULT ++ "_" ++ toString nodeId

/-- The keeper instance state mutated by service_keeper.c
`keeper_node_active`: configuration, persisted state, and the cached
`otherNodes` array. -/
structure Keeper where
  config : KeeperConfig
  state : KeeperStateData
  otherNodes : List NodeAddress
  deriving DecidableEq

/-- Oracle outcomes for one call of service_keeper.c `keeper_node_active`.
`extensionOk` is the result of `keeper_check_monitor_extension_version`,
`monitorConnOk` whether the monitor connection status is `PG_CONNECTION_OK`
when that check fails, `now` the wall-clock second sampled by `time(NULL)`
(the two `time(NULL)` calls of one iteration are modelled as the same
instant), `nodeActive` the reply of `monitor_node_active` (`none` = failure),
`replicaCheckOk`/`hasReplica` the outcome of `primary_has_replica`, `refresh`
the oracle of `keeper_refresh_other_nodes`, and
`configUpdateOk`/`ensureConfigOk` the results of `keeper_config_update` and
`keeper_ensure_configuration`. -/
structure NodeActiveOracle where
  extensionOk : Bool
  monitorConnOk : Bool
  now : Nat
  nodeActive : Option MonitorAssignedState
  replicaCheckOk : Bool
  hasReplica : Bool
  refresh : RefreshOracle
  configUpdateOk : Bool
  ensureConfigOk : Bool
  deriving DecidableEq

/-- Possible outcomes of service_keeper.c `keeper_node_active`: either the
process exits with `EXIT_CODE_MONITOR` (incompatible monitor extension), or
the function returns a boolean with the keeper in a new state. -/
inductive NodeActiveOutcome where
  | exitMonitor
  | ret (ok : Bool) (keeper : Keeper)
  deriving DecidableEq

/-- service_keeper.c `keeper_node_active`: report the current state to the
monitor and apply its answer; on a failed exchange while in the PRIMARY role,
run the network-partition check and self-assign `DEMOTE_TIMEOUT` when the
network is not healthy. -/
def keeper_node_active (keeper : Keeper) (o : NodeActiveOracle) :
    NodeActiveOutcome :=
  if ¬ o.extensionOk then
    if ¬ o.monitorConnOk then
      NodeActiveOutcome.ret false keeper
    else
      NodeActiveOutcome.exitMonitor
  else
    match o.nodeActive with
    | none =>
      if keeper.state.current_role = NodeState.PRIMARY then
        let healthyState :=
          is_network_healthy keeper.config.network_partition_timeout
            o.replicaCheckOk o.hasReplica o.now keeper.state
        if ¬ healthyState.1 then
          NodeActiveOutcome.ret false
            { keeper with state :=
              { healthyState.2 with assigned_role := NodeState.DEMOTE_TIMEOUT } }
        else
          NodeActiveOutcome.ret false { keeper with state := healthyState.2 }
      else
        NodeActiveOutcome.ret false keeper
    | some assignedState =>
      let keeper1 : Keeper :=
        { keeper with state :=
          { keeper.state with
            last_monitor_contact := o.now
            assigned_role := assignedState.state } }
      let refreshed := keeper_refresh_other_nodes keeper1.otherNodes false o.refresh
      if ¬ refreshed.1 then
        NodeActiveOutcome.ret false { keeper1 with otherNodes := refreshed.2 }
      else
        let keeper2 := { keeper1 with otherNodes := refreshed.2 }
        let expectedSlotName := postgres_sprintf_replicationSlotName assignedState.nodeId
        if assignedState.groupId ≠ keeper2.config.groupId ∨
            keeper2.config.replication_slot_name ≠ expectedSlotName then
          if ¬ o.configUpdateOk then
            NodeActiveOutcome.ret false keeper2
          else
            let keeper3 := { keeper2 with config :=
              { keeper2.config with
                groupId := assignedState.groupId
                replication_slot_name := expectedSlotName } }
            if ¬ o.ensureConfigOk then
              NodeActiveOutcome.ret false keeper3
            else
              NodeActiveOutcome.ret true keeper3
        else
          NodeActiveOutcome.ret true keeper2

/-- The Postgres control data values (pg_control_version, catalog_version_no,
system_identifier) cached in the keeper state. -/
structure PostgresControlData where
  pg_control_version : Nat
  catalog_version_no : Nat
  system_identifier : Nat
  deriving DecidableEq

/-- The values written by a successful `pgsql_get_postgres_metadata` call:
recovery status, the `pg_stat_replication` sync-state string (empty when no
standby is connected), the current LSN string, and the control data. -/
structure PostgresMetadata where
  is_in_recovery : Bool
  pgsrSyncState : String
  currentLSN : String
  control : PostgresControlData
  deriving DecidableEq

/-- keeper.c `keeper_state_check_postgres`: fails exactly when the cached
system identifier is nonzero and differs from the control data's. -/
def keeper_state_check_postgres (keeperState : KeeperStateData)
    (control : PostgresControlData) : Bool :=
  if keeperState.system_identifier ≠ control.system_identifier ∧
      keeperState.system_identifier ≠ 0 then
    false
  else
    true

/-- Oracle outcomes for one call of keeper.c `keeper_update_pg_state`:
`pgSetupReady` is the result of `pg_setup_is_ready`, `pidFilePort` the port
found in the Postgres PID file, `metadata` the result of
`pgsql_get_postgres_metadata` (`none` = failure), and `controldata` the result
of running `pg_controldata` when Postgres is not running (`none` =
failure). -/
structure UpdatePgStateOracle where
  pgSetupReady : Bool
  pidFilePort : Int
  metadata : Option PostgresMetadata
  controldata : Option PostgresControlData
  deriving DecidableEq

/-- keeper.c `keeper_update_pg_state`: refresh the local Postgres facts
(`pgIsRunning`, sync state, current LSN, control data) and validate them
against the current role.  Returns the function's boolean result, the
refreshed local facts, and the (possibly updated) keeper state.
`configuredPort` is `config->pgSetup.pgport`. -/
def keeper_update_pg_state (keeperState : KeeperStateData)
    (configuredPort : Int) (o : UpdatePgStateOracle) :
    Bool × LocalPostgres × KeeperStateData :=
  let postgres0 : LocalPostgres :=
    { pgIsRunning := false, pgFirstStartFailureTs := 0, pgStartRetries := 0,
      pgsrSyncState := "", currentLSN := "0/0" }
  let sampled :
      Bool × LocalPostgres × KeeperStateData :=
    if o.pgSetupReady then
      if o.pidFilePort ≠ configuredPort then
        (false, postgres0, keeperState)
      else
        let postgres1 := { postgres0 with pgIsRunning := true }
        match o.metadata with
        | none => (false, postgres1, keeperState)
        | some metadata =>
          let postgres2 :=
            { postgres1 with
              pgsrSyncState := metadata.pgsrSyncState
              currentLSN := metadata.currentLSN }
          if ¬ keeper_state_check_postgres keeperState metadata.control then
            (false, postgres2, keeperState)
          else
            (true, postgres2,
              { keeperState with
                pg_control_version := metadata.control.pg_control_version
                catalog_version_no := metadata.control.catalog_version_no
                system_identifier := metadata.control.system_identifier })
    else
      if keeperState.pg_control_version ≠ 0 then
        (true, postgres0, keeperState)
      else
        match o.controldata with
        | none => (false, postgres0, keeperState)
        | some _ => (true, postgres0, keeperState)
  if ¬ sampled.1 then
    sampled
  else
    let postgres := sampled.2.1
    let keeperState' := sampled.2.2
    match keeperState.current_role with
    | NodeState.WAIT_PRIMARY =>
      (postgres.pgIsRunning, postgres, keeperState')
    | NodeState.PRIMARY =>
      (postgres.pgIsRunning &&
        decide (postgres.currentLSN ≠ "") &&
        decide (postgres.pgsrSyncState ≠ ""),
       postgres, keeperState')
    | NodeState.SECONDARY =>
      (postgres.pgIsRunning, postgres, keeperState')
    | NodeState.CATCHINGUP =>
      (postgres.pgIsRunning, postgres, keeperState')
    | _ => (true, postgres, keeperState')

/-- pgsql.c: `RAND_MAX`, the largest value returned by `pg_lrand48` (2^31-1). -/
def RAND_MAX : Int := 2147483647

/-- pgsql.c macro `random_between(M, N)` with the `pg_lrand48()` sample made
the explicit argument `r`; C integer division truncates toward zero
(`Int.tdiv`). -/
def random_between (M N r : Int) : Int :=
  M + Int.tdiv r (Int.tdiv RAND_MAX (N - M + 1) + 1)

/-- The connection-retry policy state of pgsql.h `ConnectionRetryPolicy`
(fields used by the sleep-time computation). -/
structure ConnectionRetryPolicy where
  maxSleepTime : Int
  baseSleepTime : Int
  sleepTime : Int
  attempts : Int
  deriving DecidableEq

/-- pgsql.c `pgsql_compute_connection_retry_sleep_time` with the random
sample `r` made explicit: decorrelated jitter, capped by `maxSleepTime` (the
C macro `min(a, b) = a < b ? a : b`).  Returns the sleep time and the updated
policy state. -/
def pgsql_compute_connection_retry_sleep_time (policy : ConnectionRetryPolicy)
    (r : Int) : Int × ConnectionRetryPolicy :=
  let previousSleepTime := policy.sleepTime
  let sleepTime := random_between policy.baseSleepTime (previousSleepTime * 3) r
  let cappedSleepTime := min policy.maxSleepTime sleepTime
  (cappedSleepTime,
   { policy with
     sleepTime := cappedSleepTime
     attempts := policy.attempts + 1 })

/-- Observable events of keeper.c `keeper_register_and_init`.  Remote SQL
commands (`beginTx`, `registerCall`, `commitTx`, `rollbackTx`) are recorded
when issued; local file operations (`createStateFile`, `writeStateFile`,
`writeConfigFile`, `writeInitFile`, `unlinkStateFile`) are recorded when they
complete successfully. -/
inductive RegEvent where
  | createStateFile
  | beginTx
  | registerCall
  | writeStateFile
  | writeConfigFile
  | writeInitFile
  | commitTx
  | rollbackTx
  | unlinkStateFile
  deriving DecidableEq

/-- Oracle outcomes for the effectful steps of keeper.c
`keeper_register_and_init`, in program order: `keeper_state_create_file`,
`keeper_init`, `pgsql_execute(BEGIN)`, `monitor_register_node`,
`keeper_update_state` (which writes the state file), `keeper_config_update`,
`keeper_init_state_create`, and `pgsql_execute(COMMIT)`.  The result of the
ROLLBACK statement is ignored by the code. -/
structure RegisterOracle where
  createOk : Bool
  initOk : Bool
  beginOk : Bool
  registerOk : Bool
  writeStateOk : Bool
  configUpdateOk : Bool
  initStateOk : Bool
  commitOk : Bool
  deriving DecidableEq

/-- Result of keeper.c `keeper_register_and_init`: the boolean return value,
the ordered trace of observable events, and whether a state file remains on
disk afterwards.  `keeper_state_create_file` writes the state file atomically
(write-temp-then-rename, spec §4.4), so a failed create leaves no file and a
failed later write leaves the previous file in place until `unlink_file`. -/
structure RegisterResult where
  success : Bool
  trace : List RegEvent
  stateFileExists : Bool
  deriving DecidableEq

/-- keeper.c `keeper_register_and_init`: create the state file, then register
on the monitor inside an explicit BEGIN/COMMIT transaction, writing the local
state, configuration and init files before the COMMIT; the `rollback:` label
unlinks the state file and issues ROLLBACK, and a failed COMMIT also unlinks
the state file (without ROLLBACK). -/
def keeper_register_and_init (o : RegisterOracle) : RegisterResult :=
  if ¬ o.createOk then
    { success := false, trace := [], stateFileExists := false }
  else if ¬ o.initOk then
    { success := false, trace := [RegEvent.createStateFile],
      stateFileExists := true }
  else if ¬ o.beginOk then
    { success := false,
      trace := [RegEvent.createStateFile, RegEvent.beginTx,
                RegEvent.unlinkStateFile],
      stateFileExists := false }
  else if ¬ o.registerOk then
    { success := false,
      trace := [RegEvent.createStateFile, RegEvent.beginTx,
                RegEvent.registerCall, RegEvent.unlinkStateFile,
                RegEvent.rollbackTx],
      stateFileExists := false }
  else if ¬ o.writeStateOk then
    { success := false,
      trace := [RegEvent.createStateFile, RegEvent.beginTx,
                RegEvent.registerCall, RegEvent.unlinkStateFile,
                RegEvent.rollbackTx],
      stateFileExists := false }
  else if ¬ o.configUpdateOk then
    { success := false,
      trace := [RegEvent.createStateFile, RegEvent.beginTx,
                RegEvent.registerCall, RegEvent.writeStateFile,
                RegEvent.unlinkStateFile, RegEvent.rollbackTx],
      stateFileExists := false }
  else if ¬ o.initStateOk then
    { success := false,
      trace := [RegEvent.createStateFile, RegEvent.beginTx,
                RegEvent.registerCall, RegEvent.writeStateFile,
                RegEvent.writeConfigFile, RegEvent.unlinkStateFile,
                RegEvent.rollbackTx],
      stateFileExists := false }
  else if ¬ o.commitOk then
    { success := false,
      trace := [RegEvent.createStateFile, RegEvent.beginTx,
                RegEvent.registerCall, RegEvent.writeStateFile,
                RegEvent.writeConfigFile, RegEvent.writeInitFile,
                RegEvent.commitTx, RegEvent.unlinkStateFile],
      stateFileExists := false }
  else
    { success := true,
      trace := [RegEvent.createStateFile, RegEvent.beginTx,
                RegEvent.registerCall, RegEvent.writeStateFile,
                RegEvent.writeConfigFile, RegEvent.writeInitFile,
                RegEvent.commitTx],
      stateFileExists := true }

lemma usub64_eq_sub {a b : Nat} (hba : b ≤ a) (ha : a < 2 ^ 64) :
    usub64 a b = a - b := by
  have h64 : (2 : Nat) ^ 64 = 18446744073709551616 := by norm_num
  unfold usub64
  rw [h64]
  omega

lemma in_network_partition_iff (ks : KeeperStateData) (now timeout : Nat)
    (hm : ks.last_monitor_contact ≤ now) (hs : ks.last_secondary_contact ≤ now)
    (hnow : now < 2 ^ 64) :
    in_network_partition ks now timeout = true ↔
      (ks.last_monitor_contact ≠ 0 ∧ ks.last_secondary_contact ≠ 0 ∧
        timeout < now - ks.last_monitor_contact ∧
        timeout < now - ks.last_secondary_contact) := by
  simp only [in_network_partition, usub64_eq_sub hm hnow, usub64_eq_sub hs hnow,
    Bool.and_eq_true, decide_eq_true_eq]
  omega

lemma should_ensure_skip_iff_roles :
    ∀ c a : NodeState, c ≠ a →
      (keeper_should_ensure_current_state_before_transition
          { current_node_id := 0, current_group := 0, current_role := c,
            assigned_role := a, last_monitor_contact := 0,
            last_secondary_contact := 0, pg_control_version := 0,
            catalog_version_no := 0, system_identifier := 0 } = false ↔
        (c = NodeState.DRAINING ∨ c = NodeState.DEMOTE_TIMEOUT ∨
          c = NodeState.DEMOTED ∨ a = NodeState.DRAINING ∨
          a = NodeState.DEMOTE_TIMEOUT ∨ a = NodeState.DEMOTED)) := by
  decide

/-- C5: for every pair (currentRole, assignedRole) with currentRole ≠
assignedRole, the pre-transition ensureCurrentState step is skipped (the
predicate returns false) if and only if the current or the assigned role is
one of DRAINING, DEMOTE_TIMEOUT, DEMOTED; for every other pair the step is
performed. -/
theorem C5_should_ensure_skip_iff (keeperState : KeeperStateData)
    (h : keeperState.current_role ≠ keeperState.assigned_role) :
    keeper_should_ensure_current_state_before_transition keeperState = false ↔
      (keeperState.current_role = NodeState.DRAINING ∨
        keeperState.current_role = NodeState.DEMOTE_TIMEOUT ∨
        keeperState.current_role = NodeState.DEMOTED ∨
        keeperState.assigned_role = NodeState.DRAINING ∨
        keeperState.assigned_role = NodeState.DEMOTE_TIMEOUT ∨
        keeperState.assigned_role = NodeState.DEMOTED) := by
  have hroles :=
    should_ensure_skip_iff_roles keeperState.current_role
      keeperState.assigned_role h
  have heq : keeper_should_ensure_current_state_before_transition keeperState =
      keeper_should_ensure_current_state_before_transition
        { current_node_id := 0, current_group := 0,
          current_role := keeperState.current_role,
          assigned_role := keeperState.assigned_role,
          last_monitor_contact := 0, last_secondary_contact := 0,
          pg_control_version := 0, catalog_version_no := 0,
          system_identifier := 0 } := rfl
  rw [heq]
  exact hroles

theorem C5_should_ensure_skip_iff_witness :
    keeper_should_ensure_current_state_before_transition
      { current_node_id := 1, current_group := 0,
        current_role := NodeState.PRIMARY,
        assigned_role := NodeState.DEMOTED,
        last_monitor_contact := 0, last_secondary_contact := 0,
        pg_control_version := 0, catalog_version_no := 0,
        system_identifier := 0 } = false :=
  (C5_should_ensure_skip_iff _ (by decide)).mpr
    (Or.inr (Or.inr (Or.inr (Or.inr (Or.inr rfl)))))

/-- C2: the claim says a PRIMARY whose Postgres is not running and whose
first-start-failure timestamp is still zero is reported as running (true);
the code in this branch returns `postgres->pgIsRunning`, which is false
there.  This theorem evaluates the embedded code at that input. -/
theorem C2_report_never_failed_eval :
    ReportPgIsRunning NodeState.PRIMARY
      { pgIsRunning := false, pgFirstStartFailureTs := 0, pgStartRetries := 0,
        pgsrSyncState := "", currentLSN := "0/0" }
      100 20 3 = false := by
  decide

/-- C8: when the monitor node_active exchange fails and the persisted
currentRole is not PRIMARY, keeper_node_active returns false and leaves the
keeper (assignedRole, lastMonitorContact, lastSecondaryContact, otherNodes,
configuration) unchanged. -/
theorem C8_nonprimary_failure_frame (keeper : Keeper) (o : NodeActiveOracle)
    (hext : o.extensionOk = true)
    (hfail : o.nodeActive = none)
    (hrole : keeper.state.current_role ≠ NodeState.PRIMARY) :
    keeper_node_active keeper o = NodeActiveOutcome.ret false keeper := by
  simp [keeper_node_active, hext, hfail, hrole]

theorem C8_nonprimary_failure_frame_witness :
    keeper_node_active
      { config := { groupId := 0, replication_slot_name := "pgautofailover_standby_2",
                    network_partition_timeout := 30 },
        state := { current_node_id := 2, current_group := 0,
                   current_role := NodeState.SECONDARY,
                   assigned_role := NodeState.SECONDARY,
                   last_monitor_contact := 5, last_secondary_contact := 0,
                   pg_control_version := 0, catalog_version_no := 0,
                   system_identifier := 42 },
        otherNodes := [] }
      { extensionOk := true, monitorConnOk := true, now := 100,
        nodeActive := none, replicaCheckOk := true, hasReplica := false,
        refresh := { getOtherNodes := none, hbaEnsureOk := true,
                     pgIsRunning := true, reloadOk := true },
        configUpdateOk := true, ensureConfigOk := true } =
      NodeActiveOutcome.ret false
        { config := { groupId := 0, replication_slot_name := "pgautofailover_standby_2",
                      network_partition_timeout := 30 },
          state := { current_node_id := 2, current_group := 0,
                     current_role := NodeState.SECONDARY,
                     assigned_role := NodeState.SECONDARY,
                     last_monitor_contact := 5, last_secondary_contact := 0,
                     pg_control_version := 0, catalog_version_no := 0,
                     system_identifier := 42 },
          otherNodes := [] } :=
  C8_nonprimary_failure_frame _ _ rfl rfl (by decide)

lemma keeper_refresh_other_nodes_cases (otherNodes : List NodeAddress)
    (forceCacheInvalidation : Bool) (o : RefreshOracle) :
    keeper_refresh_other_nodes otherNodes forceCacheInvalidation o =
        (false, otherNodes) ∨
      ∃ newNodes, o.getOtherNodes = some newNodes ∧
        keeper_refresh_other_nodes otherNodes forceCacheInvalidation o =
          (true, newNodes) := by
  unfold keeper_refresh_other_nodes
  rcases hnodes : o.getOtherNodes with _ | newNodes
  · exact Or.inl rfl
  · dsimp only
    split_ifs <;>
      first
        | exact Or.inl rfl
        | exact Or.inr ⟨newNodes, rfl, rfl⟩

/-- C9: keeper_refresh_other_nodes updates the cached otherNodes array only
on overall success: whenever it returns false the cache keeps its previous
contents; it does return false when fetching the node list from the monitor
fails, and when the HBA update for a nonempty computed diff fails. -/
theorem C9_refresh_other_nodes_frame (otherNodes : List NodeAddress)
    (forceCacheInvalidation : Bool) (o : RefreshOracle) :
    ((keeper_refresh_other_nodes otherNodes forceCacheInvalidation o).1 = false →
      (keeper_refresh_other_nodes otherNodes forceCacheInvalidation o).2 =
        otherNodes) ∧
    (o.getOtherNodes = none →
      (keeper_refresh_other_nodes otherNodes forceCacheInvalidation o).1 = false) ∧
    (∀ newNodes : List NodeAddress, o.getOtherNodes = some newNodes →
      ¬ (newNodes.length = 0 ∨
          (if forceCacheInvalidation then newNodes
            else diff_nodesArray otherNodes newNodes).length = 0) →
      keeper_update_group_hba o
        (if forceCacheInvalidation then newNodes
          else diff_nodesArray otherNodes newNodes) = false →
      keeper_refresh_other_nodes otherNodes forceCacheInvalidation o =
        (false, otherNodes)) := by
  refine ⟨?_, ?_, ?_⟩
  · intro hfalse
    rcases keeper_refresh_other_nodes_cases otherNodes forceCacheInvalidation o
      with hcase | ⟨newNodes, _, hcase⟩
    · rw [hcase]
    · rw [hcase] at hfalse
      exact absurd hfalse (by simp)
  · intro hnone
    simp [keeper_refresh_other_nodes, hnone]
  · intro newNodes hsome hne hhba
    simp only [List.length_eq_zero, not_or] at hne
    simp [keeper_refresh_other_nodes, hsome, hhba, hne.1, hne.2]

theorem C9_refresh_other_nodes_frame_witness :
    (keeper_refresh_other_nodes
        [ { nodeId := 2, name := "b", host := "hb", port := 5432,
            lsn := "0/1", isPrimary := false } ]
        false
        { getOtherNodes := none, hbaEnsureOk := true,
          pgIsRunning := false, reloadOk := true }).1 = false :=
  (C9_refresh_other_nodes_frame _ false _).2.1 rfl

/-- C10: for a node whose persisted currentRole is PRIMARY,
keeper_update_pg_state returns false whenever Postgres is found ready on the
configured port and every local sampling step succeeded, but the replication
sync-state string from pg_stat_replication or the current LSN string is
empty. -/
theorem C10_primary_requires_syncstate (keeperState : KeeperStateData)
    (configuredPort : Int) (o : UpdatePgStateOracle)
    (metadata : PostgresMetadata)
    (hready : o.pgSetupReady = true)
    (hport : o.pidFilePort = configuredPort)
    (hmeta : o.metadata = some metadata)
    (hcheck : keeper_state_check_postgres keeperState metadata.control = true)
    (hrole : keeperState.current_role = NodeState.PRIMARY)
    (hempty : metadata.pgsrSyncState = "" ∨ metadata.currentLSN = "") :
    (keeper_update_pg_state keeperState configuredPort o).1 = false := by
  rcases hempty with hempty | hempty <;>
    simp [keeper_update_pg_state, hready, hport, hmeta, hcheck, hrole, hempty]

theorem C10_primary_requires_syncstate_witness :
    (keeper_update_pg_state
        { current_node_id := 1, current_group := 0,
          current_role := NodeState.PRIMARY,
          assigned_role := NodeState.PRIMARY,
          last_monitor_contact := 10, last_secondary_contact := 10,
          pg_control_version := 1201, catalog_version_no := 201909212,
          system_identifier := 42 }
        5432
        { pgSetupReady := true, pidFilePort := 5432,
          metadata := some
            { is_in_recovery := false, pgsrSyncState := "",
              currentLSN := "0/4000060",
              control := { pg_control_version := 1201,
                           catalog_version_no := 201909212,
                           system_identifier := 42 } },
          controldata := none }).1 = false :=
  C10_primary_requires_syncstate _ _ _ _ rfl rfl rfl (by decide) rfl
    (Or.inl rfl)

lemma random_between_bounds (M N r : Int) (hMN : M ≤ N) (hr0 : 0 ≤ r)
    (hrmax : r ≤ RAND_MAX) :
    M ≤ random_between M N r ∧ random_between M N r ≤ N := by
  have hk : 0 < N - M + 1 := by omega
  have hRM : (0 : Int) ≤ RAND_MAX := by norm_num [RAND_MAX]
  have hdiv : Int.tdiv RAND_MAX (N - M + 1) = RAND_MAX / (N - M + 1) :=
    Int.tdiv_eq_ediv hRM (le_of_lt hk)
  have hd0 : 0 < RAND_MAX / (N - M + 1) + 1 := by
    have := Int.ediv_nonneg hRM (le_of_lt hk)
    omega
  have hrd : Int.tdiv r (RAND_MAX / (N - M + 1) + 1) =
      r / (RAND_MAX / (N - M + 1) + 1) :=
    Int.tdiv_eq_ediv hr0 (le_of_lt hd0)
  have hlo : 0 ≤ r / (RAND_MAX / (N - M + 1) + 1) :=
    Int.ediv_nonneg hr0 (le_of_lt hd0)
  have h1 : r / (RAND_MAX / (N - M + 1) + 1) ≤
      RAND_MAX / (RAND_MAX / (N - M + 1) + 1) :=
    Int.ediv_le_ediv hd0 hrmax
  have h2 : RAND_MAX / (RAND_MAX / (N - M + 1) + 1) < N - M + 1 := by
    rw [Int.ediv_lt_iff_lt_mul hd0]
    calc RAND_MAX < (RAND_MAX / (N - M + 1) + 1) * (N - M + 1) :=
          Int.lt_ediv_add_one_mul_self RAND_MAX hk
      _ = (N - M + 1) * (RAND_MAX / (N - M + 1) + 1) := by ring
  unfold random_between
  rw [hdiv, hrd]
  omega

/-- C7: for every retry attempt and every retry-policy configuration with
maxSleepMs ≥ baseSleepMs ≥ 0, the computed connection-retry sleep time equals
min(maxSleepMs, uniform(baseSleepMs, previousSleep * 3)) — where the
uniform(a, b) sample is the code's `random_between` value, shown to lie
between baseSleepMs and previousSleep * 3 — and therefore never exceeds
maxSleepMs. -/
theorem C7_retry_sleep_capped (policy : ConnectionRetryPolicy) (r : Int)
    (_hbase0 : 0 ≤ policy.baseSleepTime)
    (_hbasecap : policy.baseSleepTime ≤ policy.maxSleepTime)
    (hbaseprev : policy.baseSleepTime ≤ policy.sleepTime * 3)
    (hr0 : 0 ≤ r) (hrmax : r ≤ RAND_MAX) :
    (pgsql_compute_connection_retry_sleep_time policy r).1 =
        min policy.maxSleepTime
          (random_between policy.baseSleepTime (policy.sleepTime * 3) r) ∧
      policy.baseSleepTime ≤
        random_between policy.baseSleepTime (policy.sleepTime * 3) r ∧
      random_between policy.baseSleepTime (policy.sleepTime * 3) r ≤
        policy.sleepTime * 3 ∧
      (pgsql_compute_connection_retry_sleep_time policy r).1 ≤
        policy.maxSleepTime := by
  obtain ⟨hlo, hhi⟩ :=
    random_between_bounds policy.baseSleepTime (policy.sleepTime * 3) r
      hbaseprev hr0 hrmax
  exact ⟨rfl, hlo, hhi, min_le_left _ _⟩

theorem C7_retry_sleep_capped_witness :
    (pgsql_compute_connection_retry_sleep_time
        { maxSleepTime := 2000, baseSleepTime := 1000,
          sleepTime := 1000, attempts := 1 } 123456).1 ≤ 2000 :=
  (C7_retry_sleep_capped
      { maxSleepTime := 2000, baseSleepTime := 1000,
        sleepTime := 1000, attempts := 1 } 123456
      (by norm_num) (by norm_num) (by norm_num) (by norm_num)
      (by norm_num [RAND_MAX])).2.2.2

/-- C1: when the monitor node_active exchange fails and the persisted
currentRole is PRIMARY, the keeper self-assigns assignedRole = DEMOTE_TIMEOUT
if and only if no connected replica is observed in the local replication
view, both lastMonitorContact and lastSecondaryContact are nonzero, and both
contact lags strictly exceed the configured network partition timeout; when a
replica is observed, lastSecondaryContact is refreshed to now and the node
remains primary with its assigned role unchanged. -/
theorem C1_partition_self_demotion_iff (keeper : Keeper) (o : NodeActiveOracle)
    (hext : o.extensionOk = true)
    (hfail : o.nodeActive = none)
    (hrole : keeper.state.current_role = NodeState.PRIMARY)
    (hassigned : keeper.state.assigned_role ≠ NodeState.DEMOTE_TIMEOUT)
    (hm : keeper.state.last_monitor_contact ≤ o.now)
    (hs : keeper.state.last_secondary_contact ≤ o.now)
    (hnow : o.now < 2 ^ 64) :
    (keeper_node_active keeper o =
        NodeActiveOutcome.ret false
          { keeper with state :=
            { keeper.state with assigned_role := NodeState.DEMOTE_TIMEOUT } } ↔
      (¬ (o.replicaCheckOk = true ∧ o.hasReplica = true) ∧
        keeper.state.last_monitor_contact ≠ 0 ∧
        keeper.state.last_secondary_contact ≠ 0 ∧
        keeper.config.network_partition_timeout <
          o.now - keeper.state.last_monitor_contact ∧
        keeper.config.network_partition_timeout <
          o.now - keeper.state.last_secondary_contact)) ∧
    (o.replicaCheckOk = true → o.hasReplica = true →
      keeper_node_active keeper o =
        NodeActiveOutcome.ret false
          { keeper with state :=
            { keeper.state with last_secondary_contact := o.now } }) := by
  have hpartiff :=
    in_network_partition_iff keeper.state o.now
      keeper.config.network_partition_timeout hm hs hnow
  by_cases hrep : (o.replicaCheckOk && o.hasReplica) = true
  · have hna : keeper_node_active keeper o =
        NodeActiveOutcome.ret false
          { keeper with state :=
            { keeper.state with last_secondary_contact := o.now } } := by
      simp [keeper_node_active, hext, hfail, hrole, is_network_healthy, hrep]
    rw [Bool.and_eq_true] at hrep
    constructor
    · rw [hna]
      constructor
      · intro heq
        exfalso
        obtain ⟨cfg, st, others⟩ := keeper
        obtain ⟨i, g, c, a, m, s, p, q, y⟩ := st
        simp only [NodeActiveOutcome.ret.injEq, Keeper.mk.injEq,
          KeeperStateData.mk.injEq, true_and, and_true] at heq
        exact hassigned heq.1
      · intro hconds
        exact absurd hrep hconds.1
    · intro _ _
      exact hna
  · by_cases hpart :
        in_network_partition keeper.state o.now
          keeper.config.network_partition_timeout = true
    · have hna : keeper_node_active keeper o =
          NodeActiveOutcome.ret false
            { keeper with state :=
              { keeper.state with assigned_role := NodeState.DEMOTE_TIMEOUT } } := by
        simp [keeper_node_active, hext, hfail, hrole, is_network_healthy, hrep,
          hpart]
      constructor
      · rw [hna]
        constructor
        · intro _
          refine ⟨?_, (hpartiff.mp hpart).1, (hpartiff.mp hpart).2.1,
            (hpartiff.mp hpart).2.2.1, (hpartiff.mp hpart).2.2.2⟩
          intro hboth
          exact hrep (by simp [hboth.1, hboth.2])
        · intro _
          rfl
      · intro h1 h2
        exact absurd (by simp [h1, h2]) hrep
    · have hna : keeper_node_active keeper o = NodeActiveOutcome.ret false keeper := by
        simp [keeper_node_active, hext, hfail, hrole, is_network_healthy, hrep,
          hpart]
      constructor
      · rw [hna]
        constructor
        · intro heq
          exfalso
          obtain ⟨cfg, st, others⟩ := keeper
          obtain ⟨i, g, c, a, m, s, p, q, y⟩ := st
          simp only [NodeActiveOutcome.ret.injEq, Keeper.mk.injEq,
            KeeperStateData.mk.injEq, true_and, and_true] at heq
          exact hassigned heq
        · intro hconds
          exact absurd (hpartiff.mpr
            ⟨hconds.2.1, hconds.2.2.1, hconds.2.2.2.1, hconds.2.2.2.2⟩) hpart
      · intro h1 h2
        exact absurd (by simp [h1, h2]) hrep

theorem C1_partition_self_demotion_iff_witness :
    keeper_node_active
      { config := { groupId := 0,
                    replication_slot_name := "pgautofailover_standby_1",
                    network_partition_timeout := 30 },
        state := { current_node_id := 1, current_group := 0,
                   current_role := NodeState.PRIMARY,
                   assigned_role := NodeState.PRIMARY,
                   last_monitor_contact := 10, last_secondary_contact := 20,
                   pg_control_version := 0, catalog_version_no := 0,
                   system_identifier := 7 },
        otherNodes := [] }
      { extensionOk := true, monitorConnOk := true, now := 100,
        nodeActive := none, replicaCheckOk := false, hasReplica := false,
        refresh := { getOtherNodes := none, hbaEnsureOk := true,
                     pgIsRunning := false, reloadOk := true },
        configUpdateOk := true, ensureConfigOk := true } =
      NodeActiveOutcome.ret false
        { config := { groupId := 0,
                      replication_slot_name := "pgautofailover_standby_1",
                      network_partition_timeout := 30 },
          state := { current_node_id := 1, current_group := 0,
                     current_role := NodeState.PRIMARY,
                     assigned_role := NodeState.DEMOTE_TIMEOUT,
                     last_monitor_contact := 10, last_secondary_contact := 20,
                     pg_control_version := 0, catalog_version_no := 0,
                     system_identifier := 7 },
          otherNodes := [] } :=
  (C1_partition_self_demotion_iff _ _ rfl rfl rfl (by decide) (by norm_num)
      (by norm_num) (by norm_num)).1.mpr
    ⟨by simp, by norm_num, by norm_num, by norm_num, by norm_num⟩

/-- C3 counterexample: with the network partition timeout configured to 0,
current role PRIMARY, no replica observed, and both contact timestamps
nonzero (5) and older than now (10), the keeper does self-assign
DEMOTE_TIMEOUT — so the claim that a 0 timeout disables self-demotion (that
the condition never becomes true) is false at this input. -/
theorem C3_zero_timeout_counterexample :
    in_network_partition
        { current_node_id := 1, current_group := 0,
          current_role := NodeState.PRIMARY,
          assigned_role := NodeState.PRIMARY,
          last_monitor_contact := 5, last_secondary_contact := 5,
          pg_control_version := 0, catalog_version_no := 0,
          system_identifier := 7 } 10 0 = true ∧
    keeper_node_active
      { config := { groupId := 0,
                    replication_slot_name := "pgautofailover_standby_1",
                    network_partition_timeout := 0 },
        state := { current_node_id := 1, current_group := 0,
                   current_role := NodeState.PRIMARY,
                   assigned_role := NodeState.PRIMARY,
                   last_monitor_contact := 5, last_secondary_contact := 5,
                   pg_control_version := 0, catalog_version_no := 0,
                   system_identifier := 7 },
        otherNodes := [] }
      { extensionOk := true, monitorConnOk := true, now := 10,
        nodeActive := none, replicaCheckOk := false, hasReplica := false,
        refresh := { getOtherNodes := none, hbaEnsureOk := true,
                     pgIsRunning := false, reloadOk := true },
        configUpdateOk := true, ensureConfigOk := true } =
      NodeActiveOutcome.ret false
        { config := { groupId := 0,
                      replication_slot_name := "pgautofailover_standby_1",
                      network_partition_timeout := 0 },
          state := { current_node_id := 1, current_group := 0,
                     current_role := NodeState.PRIMARY,
                     assigned_role := NodeState.DEMOTE_TIMEOUT,
                     last_monitor_contact := 5, last_secondary_contact := 5,
                     pg_control_version := 0, catalog_version_no := 0,
                     system_identifier := 7 },
          otherNodes := [] } := by
  constructor
  · decide
  · decide

/-- C3 amended: a network partition timeout of 0 does not disable
self-demotion; with timeout 0 the network-partition condition holds exactly
when both contact timestamps are nonzero and strictly in the past (both lags
at least 1 second), so a 0 timeout acts as an immediate partition. -/
theorem C3_zero_timeout_amended (keeperState : KeeperStateData) (now : Nat)
    (hm : keeperState.last_monitor_contact ≤ now)
    (hs : keeperState.last_secondary_contact ≤ now)
    (hnow : now < 2 ^ 64) :
    in_network_partition keeperState now 0 = true ↔
      (0 < keeperState.last_monitor_contact ∧
        0 < keeperState.last_secondary_contact ∧
        keeperState.last_monitor_contact < now ∧
        keeperState.last_secondary_contact < now) := by
  rw [in_network_partition_iff keeperState now 0 hm hs hnow]
  omega

theorem C3_zero_timeout_amended_witness :
    in_network_partition
      { current_node_id := 2, current_group := 0,
        current_role := NodeState.PRIMARY,
        assigned_role := NodeState.PRIMARY,
        last_monitor_contact := 7, last_secondary_contact := 9,
        pg_control_version := 0, catalog_version_no := 0,
        system_identifier := 7 } 11 0 = true :=
  (C3_zero_timeout_amended _ 11 (by norm_num) (by norm_num) (by norm_num)).mpr
    ⟨by norm_num, by norm_num, by norm_num, by norm_num⟩

/-- C4: node registration is atomic with respect to the local state file:
whenever register_node is issued, it is preceded by BEGIN; COMMIT is issued
only after the local state file has been successfully written and the
configuration and init files updated, and after those events; and whenever
register_node was issued and a later local step failed, ROLLBACK is issued,
the state file is unlinked, and the function fails, so no state file remains
on disk. -/
theorem C4_registration_atomicity (o : RegisterOracle) :
    (RegEvent.registerCall ∈ (keeper_register_and_init o).trace →
      List.Sublist [RegEvent.beginTx, RegEvent.registerCall]
        (keeper_register_and_init o).trace) ∧
    (RegEvent.commitTx ∈ (keeper_register_and_init o).trace →
      o.writeStateOk = true ∧ o.configUpdateOk = true ∧ o.initStateOk = true ∧
      List.Sublist
        [RegEvent.beginTx, RegEvent.registerCall, RegEvent.writeStateFile,
         RegEvent.writeConfigFile, RegEvent.writeInitFile, RegEvent.commitTx]
        (keeper_register_and_init o).trace) ∧
    (RegEvent.registerCall ∈ (keeper_register_and_init o).trace →
      (o.writeStateOk = false ∨ o.configUpdateOk = false ∨
        o.initStateOk = false) →
      RegEvent.rollbackTx ∈ (keeper_register_and_init o).trace ∧
      (keeper_register_and_init o).stateFileExists = false ∧
      (keeper_register_and_init o).success = false) := by
  obtain ⟨c1, i1, b1, r1, w1, f1, s1, m1⟩ := o
  cases c1 <;> cases i1 <;> cases b1 <;> cases r1 <;> cases w1 <;> cases f1 <;>
    cases s1 <;> cases m1 <;> decide

theorem C4_registration_atomicity_witness :
    RegEvent.rollbackTx ∈
        (keeper_register_and_init
          { createOk := true, initOk := true, beginOk := true,
            registerOk := true, writeStateOk := false, configUpdateOk := true,
            initStateOk := true, commitOk := true }).trace ∧
      (keeper_register_and_init
        { createOk := true, initOk := true, beginOk := true,
          registerOk := true, writeStateOk := false, configUpdateOk := true,
          initStateOk := true, commitOk := true }).stateFileExists = false ∧
      (keeper_register_and_init
        { createOk := true, initOk := true, beginOk := true,
          registerOk := true, writeStateOk := false, configUpdateOk := true,
          initStateOk := true, commitOk := true }).success = false :=
  (C4_registration_atomicity
      { createOk := true, initOk := true, beginOk := true,
        registerOk := true, writeStateOk := false, configUpdateOk := true,
        initStateOk := true, commitOk := true }).2.2
    (by decide) (Or.inl rfl)

/-- The HBA diff as claim C6 words it (a second definition following the
spec's words, to be compared with `diff_nodesArray` from the source): exactly
the current entries whose nodeId does not occur in the previous array, plus
the current entries whose nodeId occurs in both arrays but whose host
differs. -/
def claimed_diff_nodesArray (previousNodes currentNodes : List NodeAddress) :
    List NodeAddress :=
  currentNodes.filter (fun currNode =>
    previousNodes.all (fun prevNode => prevNode.nodeId != currNode.nodeId) ||
      previousNodes.any (fun prevNode =>
        prevNode.nodeId == currNode.nodeId && prevNode.host != currNode.host))

/-- C6 counterexample: for the nodeId-sorted previous array [node1, node2]
and current array [node2, node3], the source diff stops after appending
node2 (an unchanged peer), while the claim's diff is exactly [node3]; in
particular the new peer node3 does not appear in the source diff. -/
theorem C6_diff_counterexample :
    diff_nodesArray
        [ { nodeId := 1, name := "node_a", host := "host1", port := 5432,
            lsn := "0/1", isPrimary := true },
          { nodeId := 2, name := "node_b", host := "host2", port := 5432,
            lsn := "0/1", isPrimary := false } ]
        [ { nodeId := 2, name := "node_b", host := "host2", port := 5432,
            lsn := "0/1", isPrimary := false },
          { nodeId := 3, name := "node_c", host := "host3", port := 5432,
            lsn := "0/1", isPrimary := false } ] =
      [ { nodeId := 2, name := "node_b", host := "host2", port := 5432,
          lsn := "0/1", isPrimary := false } ] ∧
    claimed_diff_nodesArray
        [ { nodeId := 1, name := "node_a", host := "host1", port := 5432,
            lsn := "0/1", isPrimary := true },
          { nodeId := 2, name := "node_b", host := "host2", port := 5432,
            lsn := "0/1", isPrimary := false } ]
        [ { nodeId := 2, name := "node_b", host := "host2", port := 5432,
            lsn := "0/1", isPrimary := false },
          { nodeId := 3, name := "node_c", host := "host3", port := 5432,
            lsn := "0/1", isPrimary := false } ] =
      [ { nodeId := 3, name := "node_c", host := "host3", port := 5432,
          lsn := "0/1", isPrimary := false } ] := by
  exact ⟨rfl, rfl⟩

lemma diff_nodesArray_loop_cons (previousNodes : List NodeAddress)
    (prevIndex : Nat) (acc : List NodeAddress) (currNode : NodeAddress)
    (restNodes : List NodeAddress) :
    diff_nodesArray_loop previousNodes prevIndex acc (currNode :: restNodes) =
      if currNode.nodeId < (nodeAt previousNodes prevIndex).nodeId then
        diff_nodesArray_loop previousNodes prevIndex (acc ++ [currNode])
          restNodes
      else if currNode.nodeId = (nodeAt previousNodes prevIndex).nodeId then
        diff_nodesArray_loop previousNodes
          (if prevIndex < previousNodes.length then prevIndex + 1
            else prevIndex)
          (if currNode.host ≠ (nodeAt previousNodes prevIndex).host then
            acc ++ [currNode]
          else acc)
          restNodes
      else
        acc ++ [currNode] := rfl

lemma diff_nodesArray_loop_self (nodes : List NodeAddress) :
    ∀ suffixNodes prefixNodes acc : List NodeAddress,
      nodes = prefixNodes ++ suffixNodes →
      diff_nodesArray_loop nodes prefixNodes.length acc suffixNodes = acc := by
  intro suffixNodes
  induction suffixNodes with
  | nil => intro pre acc _; rfl
  | cons currNode rest ih =>
    intro pre acc heq
    have hat : nodeAt nodes pre.length = currNode := by
      subst heq
      unfold nodeAt
      rw [List.getD_eq_getElem?_getD,
        List.getElem?_append_right (Nat.le_refl pre.length)]
      simp
    have hlen : pre.length < nodes.length := by
      subst heq
      simp
    rw [diff_nodesArray_loop_cons, hat]
    rw [if_neg (lt_irrefl _), if_pos rfl, if_pos hlen, if_neg (by simp)]
    have hlist : nodes = (pre ++ [currNode]) ++ rest := by
      rw [heq, List.append_assoc]
      rfl
    have := ih (pre ++ [currNode]) acc hlist
    simpa using this

lemma diff_nodesArray_loop_mem (previousNodes : List NodeAddress) :
    ∀ (suffixNodes : List NodeAddress) (prevIndex : Nat)
      (acc : List NodeAddress) (node : NodeAddress),
      node ∈ diff_nodesArray_loop previousNodes prevIndex acc suffixNodes →
      node ∈ acc ∨ node ∈ suffixNodes := by
  intro suffixNodes
  induction suffixNodes with
  | nil =>
    intro i acc node h
    exact Or.inl h
  | cons currNode rest ih =>
    intro i acc node h
    rw [diff_nodesArray_loop_cons] at h
    simp only [List.mem_cons]
    split_ifs at h
    all_goals
      (try rcases ih _ _ _ h with h | h) <;>
        (try simp only [List.mem_append, List.mem_singleton] at h) <;> tauto

/-- C6 amended: the source diff is idempotent (diff(A, A) = ∅), against an
empty previous snapshot it is exactly the current array, and every diff entry
comes from the current array; but because the merge appends a single entry
and stops at the first current entry whose nodeId exceeds the previous entry
at its cursor, a new peer need not appear in the diff, and an unchanged
existing peer may appear in it. -/
theorem C6_diff_characterization :
    (∀ nodes : List NodeAddress, diff_nodesArray nodes nodes = []) ∧
    (∀ currentNodes : List NodeAddress,
      diff_nodesArray [] currentNodes = currentNodes) ∧
    (∀ (previousNodes currentNodes : List NodeAddress) (node : NodeAddress),
      node ∈ diff_nodesArray previousNodes currentNodes →
      node ∈ currentNodes) := by
  refine ⟨?_, ?_, ?_⟩
  · intro nodes
    unfold diff_nodesArray
    by_cases hn : nodes.length = 0
    · rw [if_pos hn]
      exact List.length_eq_zero.mp hn
    · rw [if_neg hn]
      exact diff_nodesArray_loop_self nodes nodes [] [] rfl
  · intro currentNodes
    rfl
  · intro previousNodes currentNodes node h
    unfold diff_nodesArray at h
    by_cases hn : previousNodes.length = 0
    · rw [if_pos hn] at h
      exact h
    · rw [if_neg hn] at h
      rcases diff_nodesArray_loop_mem previousNodes currentNodes 0 [] node h
        with hacc | hcurr
      · exact absurd hacc (List.not_mem_nil node)
      · exact hcurr

theorem C6_diff_characterization_witness :
    ({ nodeId := 2, name := "node_b", host := "host2", port := 5432,
       lsn := "0/1", isPrimary := false } : NodeAddress) ∈
      [ ( { nodeId := 2, name := "node_b", host := "host2", port := 5432,
            lsn := "0/1", isPrimary := false } : NodeAddress ),
        { nodeId := 3, name := "node_c", host := "host3", port := 5432,
          lsn := "0/1", isPrimary := false } ] :=
  C6_diff_characterization.2.2
    [ { nodeId := 1, name := "node_a", host := "host1", port := 5432,
        lsn := "0/1", isPrimary := true },
      { nodeId := 2, name := "node_b", host := "host2", port := 5432,
        lsn := "0/1", isPrimary := false } ]
    _ _ (by decide)
